import Mathlib

/-!
Verification of the serverless-spark log retrieval and deep-link synthesis
subsystem of the genai-toolbox repository.

The Go code under `internal/sources/serverlessspark` and
`internal/tools/serverlessspark/...` is shallowly embedded below:

* `time.Time` values are modelled as `Int` seconds since the Unix epoch
  (Go's monotonic clock and sub-second precision play no role here);
  RFC3339 formatting and parsing of the Go standard library are modelled
  by `formatRFC3339` / `parseRFC3339` (seconds precision, `Z` or `±hh:mm`
  offsets; fractional seconds are not modelled, and day-of-month range
  checking is the simple `1..31` bound).
* `map[string]any` results are modelled as association lists
  `List (String × JValue)`; only key membership matters for the
  properties below, so the (unordered) Go map is represented by the
  insertion sequence of the source code.
* the Cloud Logging backend (`logadmin.Client.Entries`) is modelled as a
  function from the filter string and the newest-first flag to the list
  of entries its iterator would yield, and the metadata lookups
  (`GetSession`/`GetBatch`) as `Except` values supplied by the caller.
-/

namespace ServerlessSpark

/-! ## Time model: seconds since the Unix epoch -/

/-- Civil date from a day count relative to 1970-01-01 (proleptic
Gregorian calendar): returns `(year, month, day)`. -/
def civilFromDays (z : Int) : Int × Nat × Nat :=
  let a := z + 719468
  let era := a.fdiv 146097
  let doe := (a - era * 146097).toNat
  let yoe := (doe - doe / 1460 + doe / 36524 - doe / 146096) / 365
  let doy := doe - (365 * yoe + yoe / 4 - yoe / 100)
  let mp := (5 * doy + 2) / 153
  let d := doy - (153 * mp + 2) / 5 + 1
  let m := if mp < 10 then mp + 3 else mp - 9
  (era * 400 + (yoe : Int) + (if m ≤ 2 then 1 else 0), m, d)

/-- Day count relative to 1970-01-01 for a civil date. -/
def daysFromCivil (y : Int) (m d : Nat) : Int :=
  let yAdj := if m ≤ 2 then y - 1 else y
  let era := yAdj.fdiv 400
  let yoe := (yAdj - era * 400).toNat
  let mp := if 2 < m then m - 3 else m + 9
  let doy := (153 * mp + 2) / 5 + d - 1
  let doe := yoe * 365 + yoe / 4 - yoe / 100 + doy
  era * 146097 + (doe : Int) - 719468

/-- Left-pad the decimal representation of `n` with zeros to width 2. -/
def pad2 (n : Nat) : String :=
  if n < 10 then "0" ++ toString n else toString n

/-- Left-pad the decimal representation of `n` with zeros to width 4. -/
def pad4 (n : Nat) : String :=
  if n < 10 then "000" ++ toString n
  else if n < 100 then "00" ++ toString n
  else if n < 1000 then "0" ++ toString n
  else toString n

/-- Model of Go `t.Format(time.RFC3339)` for a UTC `time.Time` with no
sub-second part: `t` is in seconds since the Unix epoch. -/
def formatRFC3339 (t : Int) : String :=
  let days := t.fdiv 86400
  let sod := (t - days * 86400).toNat
  let ymd := civilFromDays days
  pad4 ymd.1.toNat ++ "-" ++ pad2 ymd.2.1 ++ "-" ++ pad2 ymd.2.2 ++ "T" ++
    pad2 (sod / 3600) ++ ":" ++ pad2 (sod % 3600 / 60) ++ ":" ++ pad2 (sod % 60) ++ "Z"

/-- Numeric value of a decimal digit character, if it is one. -/
def digit? (c : Char) : Option Nat :=
  if c.isDigit then some (c.toNat - 48) else none

/-- Consume one expected literal character. -/
def expectChar (c : Char) : List Char → Option (List Char)
  | x :: r => if x = c then some r else none
  | [] => none

/-- Consume one decimal digit. -/
def readDigit : List Char → Option (Nat × List Char)
  | x :: r => do
    let d ← digit? x
    some (d, r)
  | [] => none

/-- Consume two decimal digits as one number. -/
def readDigits2 (l : List Char) : Option (Nat × List Char) := do
  let (a, l) ← readDigit l
  let (b, l) ← readDigit l
  some (a * 10 + b, l)

/-- Offset, in seconds to subtract from the wall-clock reading, denoted by
the timezone suffix of an RFC3339 string. -/
def parseOffset (l : List Char) : Option Int :=
  match l with
  | ['Z'] => some 0
  | c :: r =>
    if c = '+' ∨ c = '-' then do
      let (h, r) ← readDigits2 r
      let r ← expectChar ':' r
      let (m, r) ← readDigits2 r
      guard (r = [] ∧ h ≤ 23 ∧ m ≤ 59)
      let off : Int := h * 3600 + m * 60
      some (if c = '+' then -off else off)
    else none
  | [] => none

/-- Consume a `yyyy-mm-dd` date, with basic range checks. -/
def parseDate (l : List Char) : Option (Nat × Nat × Nat × List Char) := do
  let (ya, l) ← readDigits2 l
  let (yb, l) ← readDigits2 l
  let l ← expectChar '-' l
  let (mo, l) ← readDigits2 l
  let l ← expectChar '-' l
  let (d, l) ← readDigits2 l
  guard (1 ≤ mo ∧ mo ≤ 12 ∧ 1 ≤ d ∧ d ≤ 31)
  some (ya * 100 + yb, mo, d, l)

/-- Consume a `hh:mm:ss` wall-clock time, as seconds into the day. -/
def parseClock (l : List Char) : Option (Nat × List Char) := do
  let (h, l) ← readDigits2 l
  let l ← expectChar ':' l
  let (mi, l) ← readDigits2 l
  let l ← expectChar ':' l
  let (se, l) ← readDigits2 l
  guard (h ≤ 23 ∧ mi ≤ 59 ∧ se ≤ 59)
  some (h * 3600 + mi * 60 + se, l)

/-- Model of Go `time.Parse(time.RFC3339, s)`: `some` of the epoch-second
reading on success, `none` on any parse failure (seconds precision only;
fractional seconds are not modelled). -/
def parseRFC3339 (s : String) : Option Int := do
  let (y, mo, d, l) ← parseDate s.data
  let l ← expectChar 'T' l
  let (clock, l) ← parseClock l
  let off ← parseOffset l
  some (daysFromCivil (y : Int) mo d * 86400 + (clock : Nat) + off)

/-- Epoch-second reading of Go's zero `time.Time` (0001-01-01T00:00:00Z),
the value a missing bound leaves in place in `GetSessionLogs`. -/
def goZeroTime : Int := -62135596800

/-! ## Filter building and URL synthesis

The repository file `internal/sources/serverlessspark/url.go` is not part
of the sources provided here; only its test file `url_test.go` and its
callers are.  The definitions in this section are therefore modelled from
the specification (§4.3, §4.4) and checked byte-for-byte against the
expected values recorded in `url_test.go`. -/

/-- Modelled from the spec: the value escaping of the missing
`FilterBuilder` code — every literal `"` inside an interpolated value is
escaped by prefixing it with a backslash. -/
def escapeQuotesL : List Char → List Char
  | [] => []
  | '"' :: rest => '\\' :: '"' :: escapeQuotesL rest
  | c :: rest => c :: escapeQuotesL rest

/-- String wrapper of `escapeQuotesL`. -/
def escapeQuotes (s : String) : String := ⟨escapeQuotesL s.data⟩

/-- Surround an escaped value with double quotes. -/
def quoteValue (s : String) : String := "\"" ++ escapeQuotes s ++ "\""

/-- Modelled from the spec: the session filter clauses of the missing
`SessionLogsFilter` code, in their fixed order (§4.3), with the lower
bound padded back one minute and the upper bound forward ten minutes. -/
def sessionLogsClauses (project location sessionID : String)
    (startTime endTime : Int) : List String :=
  [ "resource.type=\"cloud_dataproc_session\"",
    "resource.labels.session_id=" ++ quoteValue sessionID,
    "resource.labels.project_id=" ++ quoteValue project,
    "resource.labels.location=" ++ quoteValue location,
    "timestamp>=" ++ quoteValue (formatRFC3339 (startTime - 60)),
    "timestamp<=" ++ quoteValue (formatRFC3339 (endTime + 600)) ]

/-- Modelled from the spec: the missing `SessionLogsFilter` function —
the session clauses joined with single newlines. -/
def SessionLogsFilter (project location sessionID : String)
    (startTime endTime : Int) : String :=
  String.intercalate ("\n") (sessionLogsClauses project location sessionID startTime endTime)

/-- Modelled from the spec: the batch filter clauses of the missing
`BatchLogsFilter` code, in their fixed order (§4.3). -/
def batchLogsClauses (project location batchID : String)
    (startTime endTime : Int) : List String :=
  [ "resource.type=\"cloud_dataproc_batch\"",
    "resource.labels.project_id=" ++ quoteValue project,
    "resource.labels.location=" ++ quoteValue location,
    "resource.labels.batch_id=" ++ quoteValue batchID,
    "timestamp>=" ++ quoteValue (formatRFC3339 (startTime - 60)),
    "timestamp<=" ++ quoteValue (formatRFC3339 (endTime + 600)) ]

/-- Modelled from the spec: the batch analogue of `SessionLogsFilter`. -/
def BatchLogsFilter (project location batchID : String)
    (startTime endTime : Int) : String :=
  String.intercalate ("\n") (batchLogsClauses project location batchID startTime endTime)

/-- Hexadecimal digit character (uppercase), for percent-encoding. -/
def hexDigitChar (n : Nat) : Char :=
  if n < 10 then Char.ofNat (48 + n) else Char.ofNat (55 + n)

/-- Characters left unescaped by Go's `url.QueryEscape`. -/
def isUnreserved (c : Char) : Bool :=
  c.isAlphanum || c == '-' || c == '_' || c == '.' || c == '~'

/-- Percent-encoding of one character, as in Go's `url.QueryEscape`
(modelled for single-byte characters). -/
def escapeCharQ (c : Char) : List Char :=
  if isUnreserved c then [c]
  else if c == ' ' then ['+']
  else ['%', hexDigitChar (c.toNat / 16 % 16), hexDigitChar (c.toNat % 16)]

/-- Model of Go `url.QueryEscape` (standard URL query-component
percent-encoding, uppercase hex). -/
def queryEscape (s : String) : String := ⟨s.data.flatMap escapeCharQ⟩

/-- Join URL query parameters with `&`. -/
def joinParams (ps : List (String × String)) : String :=
  String.intercalate ("&") (ps.map (fun kv => kv.1 ++ "=" ++ kv.2))

/-- Modelled from the spec: query parameters of the missing
`BatchLogsURL` code — the percent-encoded filter, the project, and (for
batches only) a `resource` parameter. -/
def batchLogsURLParams (project location batchID : String)
    (startTime endTime : Int) : List (String × String) :=
  [ ("advancedFilter", queryEscape (BatchLogsFilter project location batchID startTime endTime)),
    ("project", project),
    ("resource", queryEscape ("cloud_dataproc_batch/batch_id/" ++ batchID)) ]

/-- Modelled from the spec: the missing `BatchLogsURL` function. -/
def BatchLogsURL (project location batchID : String) (startTime endTime : Int) : String :=
  "https://console.cloud.google.com/logs/viewer?" ++
    joinParams (batchLogsURLParams project location batchID startTime endTime)

/-- Modelled from the spec: query parameters of the missing
`SessionLogsURL` code — no `resource` parameter for sessions. -/
def sessionLogsURLParams (project location sessionID : String)
    (startTime endTime : Int) : List (String × String) :=
  [ ("advancedFilter", queryEscape (SessionLogsFilter project location sessionID startTime endTime)),
    ("project", project) ]

/-- Modelled from the spec: the missing `SessionLogsURL` function. -/
def SessionLogsURL (project location sessionID : String) (startTime endTime : Int) : String :=
  "https://console.cloud.google.com/logs/viewer?" ++
    joinParams (sessionLogsURLParams project location sessionID startTime endTime)

/-- Modelled from the spec: the missing `BatchConsoleURL` function — the
fixed-path console deep link for a batch. -/
def BatchConsoleURL (project location batchID : String) : String :=
  "https://console.cloud.google.com/dataproc/batches/" ++ location ++ "/" ++ batchID ++
    "/summary?project=" ++ project

/-- Modelled from the spec: the missing `SessionConsoleURL` function. -/
def SessionConsoleURL (project location sessionID : String) : String :=
  "https://console.cloud.google.com/dataproc/interactive/" ++ location ++ "/" ++ sessionID ++
    "/details?project=" ++ project

/-! ## Resource-name parsing -/

/-- Split a character list at `'/'` boundaries, keeping empty segments
(the semantics of Go's `strings.Split(s, "/")`). -/
def splitAuxL : List Char → List Char → List (List Char)
  | [], acc => [acc.reverse]
  | '/' :: rest, acc => acc.reverse :: splitAuxL rest []
  | c :: rest, acc => splitAuxL rest (c :: acc)

/-- Slash-split of a string into its segments. -/
def splitSlash (s : String) : List String :=
  (splitAuxL s.data []).map (fun l => ⟨l⟩)

/-- Rejoin slash-split segments (used to state that splitting loses no
information). -/
def joinSlash : List (List Char) → List Char
  | [] => []
  | [p] => p
  | p :: rest => p ++ '/' :: joinSlash rest

/-- Modelled from the spec: the missing `ExtractBatchDetails` function —
a name of the exact shape `projects/P/locations/L/batches/B` yields
`(P, L, B)`; anything else fails with the offending string embedded. -/
def ExtractBatchDetails (name : String) : Except String (String × String × String) :=
  match splitSlash name with
  | ["projects", p, "locations", l, "batches", b] => Except.ok (p, l, b)
  | _ => Except.error ("failed to parse batch name: " ++ name)

/-- Modelled from the spec: the missing `ExtractSessionDetails` function. -/
def ExtractSessionDetails (name : String) : Except String (String × String × String) :=
  match splitSlash name with
  | ["projects", p, "locations", l, "sessions", s] => Except.ok (p, l, s)
  | _ => Except.error ("failed to parse session name: " ++ name)

/-! ## Log entries and their projection (`GetSessionLogs`) -/

/-- JSON-like values placed in the `map[string]any` result entries. -/
inductive JValue where
  | s : String → JValue
  | i : Int → JValue
  | b : Bool → JValue
  | obj : List (String × JValue) → JValue

/-- The `Method`/`URL`/`UserAgent` of `entry.HTTPRequest.Request`. -/
structure HTTPRequestDetails where
  method : String
  url : String
  userAgent : String

/-- The fields of `logging.HTTPRequest` read by `GetSessionLogs`
(`Latency.String()` is modelled as the formatted string). -/
structure HTTPRequestInfo where
  status : Int
  latency : String
  remoteIP : String
  request : Option HTTPRequestDetails

/-- The fields of `logging.Entry.Operation` read by `GetSessionLogs`. -/
structure LogOperation where
  id : String
  producer : String
  first : Bool
  last : Bool

/-- The fields of `logging.Entry.SourceLocation` read by `GetSessionLogs`. -/
structure LogSourceLocation where
  file : String
  line : Int
  function : String

/-- The monitored resource of a log entry. -/
structure MonitoredResource where
  type : String
  labels : List (String × String)

/-- The fields of a `logging.Entry` read by `GetSessionLogs`
(`Severity.String()` modelled as the label string, the timestamp as epoch
seconds, the `any`-typed payload abstractly as an optional string). -/
structure LogEntry where
  logName : String
  timestamp : Int
  severity : String
  resource : MonitoredResource
  payload : Option String
  insertID : String
  labels : List (String × String)
  httpRequest : Option HTTPRequestInfo
  trace : String
  spanID : String
  operation : Option LogOperation
  sourceLocation : Option LogSourceLocation

/-- String-to-string map as a `JValue`. -/
def labelsJ (l : List (String × String)) : JValue :=
  JValue.obj (l.map (fun kv => (kv.1, JValue.s kv.2)))

/-- The body of the `httpRequestMap` built by `GetSessionLogs`. -/
def httpRequestJ (hr : HTTPRequestInfo) : List (String × JValue) :=
  [ ("status", JValue.i hr.status),
    ("latency", JValue.s hr.latency),
    ("remoteIp", JValue.s hr.remoteIP) ] ++
  (match hr.request with
   | some rq =>
     [ ("requestMethod", JValue.s rq.method),
       ("requestUrl", JValue.s rq.url),
       ("userAgent", JValue.s rq.userAgent) ]
   | none => [])

/-- The projection of one raw record into an output entry, as built by
the loop body of `GetSessionLogs` (the Go `map[string]any` is modelled by
the association list of the keys in insertion order). -/
def projectEntry (verbose : Bool) (e : LogEntry) : List (String × JValue) :=
  let base : List (String × JValue) :=
    [ ("logName", JValue.s e.logName),
      ("timestamp", JValue.s (formatRFC3339 e.timestamp)),
      ("severity", JValue.s e.severity),
      ("resource", JValue.obj [("type", JValue.s e.resource.type), ("labels", labelsJ e.resource.labels)]) ]
  let base := base ++ (match e.payload with
    | some p => [("payload", JValue.s p)]
    | none => [])
  if verbose then
    base ++ [("insertId", JValue.s e.insertID)]
      ++ (if e.labels.isEmpty then [] else [("labels", labelsJ e.labels)])
      ++ (match e.httpRequest with
          | some hr => [("httpRequest", JValue.obj (httpRequestJ hr))]
          | none => [])
      ++ (if e.trace == "" then [] else [("trace", JValue.s e.trace)])
      ++ (if e.spanID == "" then [] else [("spanId", JValue.s e.spanID)])
      ++ (match e.operation with
          | some op =>
            [("operation", JValue.obj
              [("id", JValue.s op.id), ("producer", JValue.s op.producer),
               ("first", JValue.b op.first), ("last", JValue.b op.last)])]
          | none => [])
      ++ (match e.sourceLocation with
          | some sl =>
            [("sourceLocation", JValue.obj
              [("file", JValue.s sl.file), ("line", JValue.i sl.line),
               ("function", JValue.s sl.function)])]
          | none => [])
  else base

/-- Key membership in a result entry. -/
def hasKey (l : List (String × JValue)) (k : String) : Bool :=
  l.any (fun kv => kv.1 == k)

/-- The parameters of `Source.GetSessionLogs` (`QueryLogsParams`). -/
structure QueryLogsParams where
  sessionID : String
  filter : String
  newestFirst : Bool
  startTime : String
  endTime : String
  verbose : Bool
  limit : Int

/-- The combined filter `GetSessionLogs` hands to the logging backend:
the built session filter, plus the caller's raw fragment as one more
newline-separated part when non-empty. -/
def combinedSessionFilter (project location : String) (p : QueryLogsParams)
    (startTime endTime : Int) : String :=
  let filter := SessionLogsFilter project location p.sessionID startTime endTime
  let filterParts := [filter]
  let filterParts := if p.filter == "" then filterParts else filterParts ++ [p.filter]
  String.intercalate ("\n") filterParts

/-- The fetch loop of `GetSessionLogs`: `for len(results) < params.Limit`
pulling from the (already ordered) backend sequence, projecting each
record before yielding it. -/
def fetchLoop (verbose : Bool) (limit : Int) :
    List LogEntry → Int → List (List (String × JValue))
  | entries, n =>
    if n < limit then
      match entries with
      | [] => []
      | e :: rest => projectEntry verbose e :: fetchLoop verbose limit rest (n + 1)
    else []

/-- `Source.GetSessionLogs`: parses the (string) bounds when non-empty,
builds the combined filter, queries the backend with it and the ordering
flag, and yields at most `limit` projected entries.  The backend is the
pure sequence the `logadmin` iterator would produce for a given filter
and ordering. -/
def GetSessionLogs (backend : String → Bool → List LogEntry)
    (project location : String) (p : QueryLogsParams) :
    Except String (List (List (String × JValue))) :=
  match (if p.startTime == "" then some goZeroTime else parseRFC3339 p.startTime) with
  | none => Except.error ("invalid startTime format")
  | some startTime =>
    match (if p.endTime == "" then some goZeroTime else parseRFC3339 p.endTime) with
    | none => Except.error ("invalid endTime format")
    | some endTime =>
      let combined := combinedSessionFilter project location p startTime endTime
      let entries := backend combined p.newestFirst
      Except.ok (fetchLoop p.verbose p.limit entries 0)

/-! ## The get-logs tools -/

/-- The metadata fields the tools read from a `GetSession`/`GetBatch`
response (each a JSON string field that may be absent). -/
structure ResourceMetadata where
  createTime : Option String
  state : Option String
  stateTime : Option String

/-- Session terminal states (per the session tool's `terminalStates`). -/
def sessionTerminalStates : List String :=
  ["SUCCEEDED", "FAILED", "CANCELLED", "TERMINATED"]

/-- Batch terminal states (per the batch tool's `terminalStates`). -/
def batchTerminalStates : List String :=
  ["SUCCEEDED", "FAILED", "CANCELLED"]

/-- The tool-level parameters of the get-session-logs tool, as read from
the `paramMap` (`Option` fields are the two-valued type assertions, the
rest default to the Go zero value on a failed assertion). -/
structure SessionInvokeParams where
  sessionID : Option String
  filter : String
  newestFirst : Bool
  startTime : String
  endTime : String
  verbose : Bool
  limit : Option Int

/-- `Tool.Invoke` of the get-session-logs tool.  `getSession` stands for
the metadata lookup (already projected to the fields the tool reads) and
`getSessionLogs` for the source call; `now` is `time.Now()` formatted as
RFC3339. -/
def sessionInvoke {α : Type} (getSession : Except String ResourceMetadata)
    (getSessionLogs : QueryLogsParams → Except String α)
    (now : String) (p : SessionInvokeParams) : Except String α :=
  match p.sessionID with
  | none => Except.error ("missing required parameter: session_id")
  | some sessionID =>
    if sessionID.data.contains '/' then
      Except.error ("session_id must be a short name without '/': " ++ sessionID)
    else
      let limit : Int := match p.limit with
        | some v => if 0 < v then v else 20
        | none => 20
      let metaStep : Except String (String × String) :=
        if p.startTime == "" || p.endTime == "" then
          match getSession with
          | Except.error e =>
            Except.error ("failed to get session details to determine time range: " ++ e)
          | Except.ok sessionData =>
            let startTimeStr :=
              if p.startTime == "" then sessionData.createTime.getD ("") else p.startTime
            let endTimeStr :=
              if p.endTime == "" then
                let state := sessionData.state.getD ("")
                let fromState :=
                  if sessionTerminalStates.contains state then sessionData.stateTime.getD ("")
                  else ""
                if fromState == "" then now else fromState
              else p.endTime
            Except.ok (startTimeStr, endTimeStr)
        else Except.ok (p.startTime, p.endTime)
      match metaStep with
      | Except.error e => Except.error e
      | Except.ok (startTimeStr, endTimeStr) =>
        if startTimeStr != "" && (parseRFC3339 startTimeStr).isNone then
          Except.error ("startTime must be in RFC3339 format")
        else if endTimeStr != "" && (parseRFC3339 endTimeStr).isNone then
          Except.error ("endTime must be in RFC3339 format")
        else
          getSessionLogs
            { sessionID := sessionID, filter := p.filter, newestFirst := p.newestFirst,
              startTime := startTimeStr, endTime := endTimeStr,
              verbose := p.verbose, limit := limit }

/-- The tool-level parameters of the get-batch-logs tool. -/
structure BatchInvokeParams where
  batchID : Option String
  filter : String
  newestFirst : Bool
  startTime : String
  endTime : String
  verbose : Bool
  limit : Option Int

/-- Modelled from the spec: the missing `ParseQueryLogsParams` helper of
the batch tool — caller-supplied bounds are validated strictly against
RFC3339 (naming the offending field on failure) and a non-positive or
absent limit defaults to 20. -/
def ParseQueryLogsParams (p : BatchInvokeParams) : Except String QueryLogsParams :=
  if p.startTime != "" && (parseRFC3339 p.startTime).isNone then
    Except.error ("startTime must be in RFC3339 format")
  else if p.endTime != "" && (parseRFC3339 p.endTime).isNone then
    Except.error ("endTime must be in RFC3339 format")
  else
    Except.ok
      { sessionID := "", filter := p.filter, newestFirst := p.newestFirst,
        startTime := p.startTime, endTime := p.endTime, verbose := p.verbose,
        limit := match p.limit with
          | some v => if 0 < v then v else 20
          | none => 20 }

/-- `Tool.Invoke` of the get-batch-logs tool.  After the metadata
fill-in, the bounds are handed to `GetBatchLogs` without re-validation
(the source comments this explicitly). -/
def batchInvoke {α : Type} (getBatch : Except String ResourceMetadata)
    (getBatchLogs : String → QueryLogsParams → Except String α)
    (now : String) (p : BatchInvokeParams) : Except String α :=
  match p.batchID with
  | none => Except.error ("missing required parameter: batch_id")
  | some batchID =>
    if batchID.data.contains '/' then
      Except.error ("batch_id must be a short name without '/': " ++ batchID)
    else
      match ParseQueryLogsParams p with
      | Except.error e => Except.error e
      | Except.ok qp0 =>
        let metaStep : Except String QueryLogsParams :=
          if qp0.startTime == "" || qp0.endTime == "" then
            match getBatch with
            | Except.error e =>
              Except.error ("failed to get batch details to determine time range: " ++ e)
            | Except.ok batchData =>
              let qp1 :=
                if qp0.startTime == "" then
                  { qp0 with startTime := batchData.createTime.getD ("") }
                else qp0
              let qp2 :=
                if qp1.endTime == "" then
                  let state := batchData.state.getD ("")
                  let fromState :=
                    if batchTerminalStates.contains state then batchData.stateTime.getD ("")
                    else ""
                  { qp1 with endTime := if fromState == "" then now else fromState }
                else qp1
              Except.ok qp2
          else Except.ok qp0
        match metaStep with
        | Except.error e => Except.error e
        | Except.ok qp => getBatchLogs batchID qp

/-! ## Auxiliary observers used by the theorem statements -/

/-- Scanner core: every literal `"` must be immediately preceded by a
backslash; `prev` is the character before the current position. -/
def quotesEscapedAux (prev : Option Char) : List Char → Bool
  | [] => true
  | c :: rest => ((c != '"') || (prev == some '\\')) && quotesEscapedAux (some c) rest

/-- Every literal `"` in the character list is immediately preceded by a
backslash. -/
def quotesEscaped (l : List Char) : Bool := quotesEscapedAux none l

/-- A log entry whose optional/verbose fields are all absent or empty. -/
def emptyEntry : LogEntry :=
  { logName := "projects/p/logs/l", timestamp := 1759294800, severity := "INFO",
    resource := { type := "cloud_dataproc_session", labels := [("session_id", "s")] },
    payload := none, insertID := "", labels := [], httpRequest := none,
    trace := "", spanID := "", operation := none, sourceLocation := none }

/-! ## Helper lemmas -/

theorem fetchLoop_eq_take (verbose : Bool) (limit : Int) (l : List LogEntry) (n : Int) :
    fetchLoop verbose limit l n = (l.take (limit - n).toNat).map (projectEntry verbose) := by
  induction l generalizing n with
  | nil => rw [fetchLoop]; split <;> simp
  | cons e rest ih =>
    rw [fetchLoop]
    by_cases h : n < limit
    · have h1 : (limit - n).toNat = (limit - (n + 1)).toNat + 1 := by omega
      simp only [if_pos h, h1, List.take_succ_cons, List.map_cons, ih]
    · have h0 : (limit - n).toNat = 0 := by omega
      simp [if_neg h, h0]

theorem quotesEscapedAux_escapeQuotesL (l : List Char) :
    ∀ prev, quotesEscapedAux prev (escapeQuotesL l) = true := by
  induction l with
  | nil => intro prev; rfl
  | cons c rest ih =>
    intro prev
    by_cases hc : c = '"'
    · subst hc
      simp only [escapeQuotesL, quotesEscapedAux, ih]
      simp
    · rw [show escapeQuotesL (c :: rest) = c :: escapeQuotesL rest from by
        cases rest <;> simp [escapeQuotesL, hc]]
      simp only [quotesEscapedAux, ih, Bool.and_true]
      simp [hc]

theorem queryEscape_append (a b : String) :
    queryEscape (a ++ b) = queryEscape a ++ queryEscape b := by
  apply String.ext
  simp [queryEscape, List.flatMap_append]

/-! ## C1: verbosity gating of optional fields -/

/-- C1: refutation of the claim as stated.  With `verbose=true` an entry
whose `InsertID` is empty (so the field is not "present" on the record)
still gets an `insertId` key in the output: `GetSessionLogs` sets
`result["insertId"] = entry.InsertID` unconditionally under `verbose`. -/
theorem C1_counterexample :
    hasKey (projectEntry true emptyEntry) ("insertId") = true ∧
      emptyEntry.insertID = "" := by
  constructor
  · rfl
  · rfl

set_option maxHeartbeats 1000000 in
/-- C1 (amended): with `verbose=false` none of the seven optional fields
appear in the projected entry; with `verbose=true` the `insertId` key
always appears (even when empty on the record), and each of `labels`,
`httpRequest`, `trace`, `spanId`, `operation`, `sourceLocation` appears
if and only if it is present (non-empty / non-nil) on the source record. -/
theorem C1_verbosity_gating (e : LogEntry) :
    hasKey (projectEntry false e) ("insertId") = false ∧
    hasKey (projectEntry false e) ("labels") = false ∧
    hasKey (projectEntry false e) ("httpRequest") = false ∧
    hasKey (projectEntry false e) ("trace") = false ∧
    hasKey (projectEntry false e) ("spanId") = false ∧
    hasKey (projectEntry false e) ("operation") = false ∧
    hasKey (projectEntry false e) ("sourceLocation") = false ∧
    hasKey (projectEntry true e) ("insertId") = true ∧
    hasKey (projectEntry true e) ("labels") = !e.labels.isEmpty ∧
    hasKey (projectEntry true e) ("httpRequest") = e.httpRequest.isSome ∧
    hasKey (projectEntry true e) ("trace") = !(e.trace == "") ∧
    hasKey (projectEntry true e) ("spanId") = !(e.spanID == "") ∧
    hasKey (projectEntry true e) ("operation") = e.operation.isSome ∧
    hasKey (projectEntry true e) ("sourceLocation") = e.sourceLocation.isSome := by
  have hfalse :
      hasKey (projectEntry false e) ("insertId") = false ∧
      hasKey (projectEntry false e) ("labels") = false ∧
      hasKey (projectEntry false e) ("httpRequest") = false ∧
      hasKey (projectEntry false e) ("trace") = false ∧
      hasKey (projectEntry false e) ("spanId") = false ∧
      hasKey (projectEntry false e) ("operation") = false ∧
      hasKey (projectEntry false e) ("sourceLocation") = false := by
    simp only [projectEntry, hasKey]
    cases e.payload <;> simp
  have htrue :
      hasKey (projectEntry true e) ("insertId") = true ∧
      hasKey (projectEntry true e) ("labels") = !e.labels.isEmpty ∧
      hasKey (projectEntry true e) ("httpRequest") = e.httpRequest.isSome ∧
      hasKey (projectEntry true e) ("trace") = !(e.trace == "") ∧
      hasKey (projectEntry true e) ("spanId") = !(e.spanID == "") ∧
      hasKey (projectEntry true e) ("operation") = e.operation.isSome ∧
      hasKey (projectEntry true e) ("sourceLocation") = e.sourceLocation.isSome := by
    simp only [projectEntry, hasKey]
    cases e.payload <;> cases hl : e.labels.isEmpty <;>
      cases e.httpRequest <;> cases e.operation <;> cases e.sourceLocation <;>
      by_cases ht : e.trace == "" <;> by_cases hs : e.spanID == "" <;>
      simp [ht, hs]
  obtain ⟨a1, a2, a3, a4, a5, a6, a7⟩ := hfalse
  obtain ⟨b1, b2, b3, b4, b5, b6, b7⟩ := htrue
  exact ⟨a1, a2, a3, a4, a5, a6, a7, b1, b2, b3, b4, b5, b6, b7⟩

/-! ## C3: limit enforcement and order preservation -/

/-- C3: with a positive limit, `GetSessionLogs` yields exactly the first
`limit` entries of the backend sequence for the requested ordering,
projected in order; the number of yielded entries is the minimum of the
limit and the backend sequence length (so: exactly `N` when the sequence
is longer than `N`, all entries when it is shorter). -/
theorem C3_limit_enforcement (backend : String → Bool → List LogEntry)
    (project location : String) (p : QueryLogsParams) (st et : Int)
    (hst : (if p.startTime == "" then some goZeroTime else parseRFC3339 p.startTime) = some st)
    (het : (if p.endTime == "" then some goZeroTime else parseRFC3339 p.endTime) = some et)
    (_hpos : 0 < p.limit) :
    GetSessionLogs backend project location p =
      Except.ok
        (((backend (combinedSessionFilter project location p st et) p.newestFirst).take
            p.limit.toNat).map (projectEntry p.verbose)) ∧
    (((backend (combinedSessionFilter project location p st et) p.newestFirst).take
        p.limit.toNat).map (projectEntry p.verbose)).length =
      min p.limit.toNat
        (backend (combinedSessionFilter project location p st et) p.newestFirst).length := by
  constructor
  · unfold GetSessionLogs
    rw [hst, het]
    show Except.ok
        (fetchLoop p.verbose p.limit
          (backend (combinedSessionFilter project location p st et) p.newestFirst) 0) = _
    rw [fetchLoop_eq_take]
    have h : p.limit - 0 = p.limit := by omega
    rw [h]
  · simp [List.length_take]

/-- C3 witness: a backend holding three entries, queried with limit 2,
yields exactly the two oldest projected entries. -/
theorem C3_witness :
    GetSessionLogs (fun _ _ => [emptyEntry, emptyEntry, emptyEntry]) ("p") ("l")
        { sessionID := "s", filter := "", newestFirst := false, startTime := "",
          endTime := "", verbose := false, limit := 2 } =
      Except.ok
        (([emptyEntry, emptyEntry, emptyEntry].take (Int.toNat 2)).map (projectEntry false)) ∧
    (([emptyEntry, emptyEntry, emptyEntry].take (Int.toNat 2)).map (projectEntry false)).length =
      min (Int.toNat 2) ([emptyEntry, emptyEntry, emptyEntry] : List LogEntry).length :=
  C3_limit_enforcement (fun _ _ => [emptyEntry, emptyEntry, emptyEntry]) ("p") ("l")
    { sessionID := "s", filter := "", newestFirst := false, startTime := "",
      endTime := "", verbose := false, limit := 2 }
    goZeroTime goZeroTime rfl rfl (by decide)

/-! ## C5: quote escaping in the session filter -/

set_option maxRecDepth 40000 in
/-- C5: an id containing a literal double quote appears in the
`session_id` clause with every quote escaped by a preceding backslash
(checked byte-for-byte on the `url_test.go` vector, and in general by the
`quotesEscaped` scanner), and all other clauses are byte-identical to the
ones produced for any other id. -/
theorem C5_filter_escaping :
    (SessionLogsFilter ("my-project") ("us-central1") ("my-session\" OR root")
        1759294800 1759298400 =
      "resource.type=\"cloud_dataproc_session\"\nresource.labels.session_id=\"my-session\\\" OR root\"\nresource.labels.project_id=\"my-project\"\nresource.labels.location=\"us-central1\"\ntimestamp>=\"2025-10-01T04:59:00Z\"\ntimestamp<=\"2025-10-01T06:10:00Z\"") ∧
    (∀ project location id : String, ∀ st et : Int,
      (sessionLogsClauses project location id st et)[1]? =
        some ("resource.labels.session_id=" ++ ("\"" ++ escapeQuotes id ++ "\""))) ∧
    (∀ id : String, quotesEscaped (escapeQuotes id).data = true) ∧
    (∀ project location id id2 : String, ∀ st et : Int,
      (sessionLogsClauses project location id st et).eraseIdx 1 =
        (sessionLogsClauses project location id2 st et).eraseIdx 1) := by
  refine ⟨by decide, fun _ _ _ _ _ => rfl, ?_, fun _ _ _ _ _ _ => rfl⟩
  intro id
  exact quotesEscapedAux_escapeQuotesL id.data none

/-! ## C6: time padding of the filter bounds -/

set_option maxRecDepth 40000 in
/-- C6: the filter's lower bound is the resolved start minus one minute
and its upper bound the resolved end plus ten minutes, for both the
session and the batch clause lists; on the `url_test.go` window
(2025-10-01T05:00:00Z to 06:00:00Z) the bounds are 04:59:00Z and
06:10:00Z. -/
theorem C6_time_padding :
    (∀ project location id : String, ∀ st et : Int,
      (sessionLogsClauses project location id st et)[4]? =
        some ("timestamp>=" ++ ("\"" ++ escapeQuotes (formatRFC3339 (st - 60)) ++ "\"")) ∧
      (sessionLogsClauses project location id st et)[5]? =
        some ("timestamp<=" ++ ("\"" ++ escapeQuotes (formatRFC3339 (et + 600)) ++ "\"")) ∧
      (batchLogsClauses project location id st et)[4]? =
        some ("timestamp>=" ++ ("\"" ++ escapeQuotes (formatRFC3339 (st - 60)) ++ "\"")) ∧
      (batchLogsClauses project location id st et)[5]? =
        some ("timestamp<=" ++ ("\"" ++ escapeQuotes (formatRFC3339 (et + 600)) ++ "\""))) ∧
    parseRFC3339 ("2025-10-01T05:00:00Z") = some 1759294800 ∧
    parseRFC3339 ("2025-10-01T06:00:00Z") = some 1759298400 ∧
    (sessionLogsClauses ("my-project") ("us-central1") ("my-session") 1759294800 1759298400)[4]? =
      some ("timestamp>=\"2025-10-01T04:59:00Z\"") ∧
    (sessionLogsClauses ("my-project") ("us-central1") ("my-session") 1759294800 1759298400)[5]? =
      some ("timestamp<=\"2025-10-01T06:10:00Z\"") ∧
    (batchLogsClauses ("my-project") ("us-central1") ("my-batch") 1759294800 1759298400)[4]? =
      some ("timestamp>=\"2025-10-01T04:59:00Z\"") ∧
    (batchLogsClauses ("my-project") ("us-central1") ("my-batch") 1759294800 1759298400)[5]? =
      some ("timestamp<=\"2025-10-01T06:10:00Z\"") :=
  ⟨fun _ _ _ _ _ => ⟨rfl, rfl, rfl, rfl⟩, by decide, by decide,
    by decide, by decide, by decide, by decide⟩

/-! ## C7: clause order and raw-fragment appending -/

/-- C7: the session filter is the six clauses in their fixed order joined
by single newlines (checked byte-for-byte on the `url_test.go` vector),
and `GetSessionLogs` appends a non-empty caller-supplied raw fragment
verbatim as exactly one more newline-separated part after the built
filter. -/
theorem C7_filter_composition :
    (∀ project location : String, ∀ p : QueryLogsParams, ∀ st et : Int,
      combinedSessionFilter project location p st et =
        SessionLogsFilter project location p.sessionID st et ++
          (if p.filter == "" then "" else "\n" ++ p.filter)) ∧
    (∀ project location id : String, ∀ st et : Int,
      SessionLogsFilter project location id st et =
        "resource.type=\"cloud_dataproc_session\"" ++ "\n" ++
        ("resource.labels.session_id=" ++ quoteValue id) ++ "\n" ++
        ("resource.labels.project_id=" ++ quoteValue project) ++ "\n" ++
        ("resource.labels.location=" ++ quoteValue location) ++ "\n" ++
        ("timestamp>=" ++ quoteValue (formatRFC3339 (st - 60))) ++ "\n" ++
        ("timestamp<=" ++ quoteValue (formatRFC3339 (et + 600)))) ∧
    (SessionLogsFilter ("my-project") ("us-central1") ("my-session") 1759294800 1759298400 =
      "resource.type=\"cloud_dataproc_session\"\nresource.labels.session_id=\"my-session\"\nresource.labels.project_id=\"my-project\"\nresource.labels.location=\"us-central1\"\ntimestamp>=\"2025-10-01T04:59:00Z\"\ntimestamp<=\"2025-10-01T06:10:00Z\"") := by
  refine ⟨?_, ?_, ?_⟩
  · intro project location p st et
    unfold combinedSessionFilter
    by_cases h : p.filter == ""
    · simp [h, String.intercalate, String.intercalate.go]
    · simp [h, String.intercalate, String.intercalate.go, String.append_assoc]
  · intro project location id st et
    simp [SessionLogsFilter, sessionLogsClauses, String.intercalate, String.intercalate.go,
      quoteValue, String.append_assoc]
  · set_option maxRecDepth 40000 in decide

/-! ## C8: URL determinism and the batch-only resource parameter -/

set_option maxRecDepth 100000 in
/-- C8: the URL synthesizers are deterministic (equal identity and window
inputs give byte-identical console and logs URLs); the batch logs URL
carries a `resource=cloud_dataproc_batch%2Fbatch_id%2F<id>` query
parameter while the session logs URL has no `resource` parameter; both
logs URLs are checked byte-for-byte on the `url_test.go` vectors. -/
theorem C8_url_determinism :
    (∀ p1 p2 l1 l2 id1 id2 : String, ∀ s1 s2 e1 e2 : Int,
      p1 = p2 → l1 = l2 → id1 = id2 → s1 = s2 → e1 = e2 →
      BatchLogsURL p1 l1 id1 s1 e1 = BatchLogsURL p2 l2 id2 s2 e2 ∧
      SessionLogsURL p1 l1 id1 s1 e1 = SessionLogsURL p2 l2 id2 s2 e2 ∧
      BatchConsoleURL p1 l1 id1 = BatchConsoleURL p2 l2 id2 ∧
      SessionConsoleURL p1 l1 id1 = SessionConsoleURL p2 l2 id2) ∧
    (∀ project location batchID : String, ∀ st et : Int,
      ("resource", "cloud_dataproc_batch%2Fbatch_id%2F" ++ queryEscape batchID) ∈
        batchLogsURLParams project location batchID st et) ∧
    (∀ project location sessionID : String, ∀ st et : Int,
      (sessionLogsURLParams project location sessionID st et).all
        (fun kv => kv.1 != "resource") = true) ∧
    (BatchLogsURL ("my-project") ("us-central1") ("my-batch") 1759294800 1759298400 =
      "https://console.cloud.google.com/logs/viewer?advancedFilter=resource.type%3D%22cloud_dataproc_batch%22%0Aresource.labels.project_id%3D%22my-project%22%0Aresource.labels.location%3D%22us-central1%22%0Aresource.labels.batch_id%3D%22my-batch%22%0Atimestamp%3E%3D%222025-10-01T04%3A59%3A00Z%22%0Atimestamp%3C%3D%222025-10-01T06%3A10%3A00Z%22&project=my-project&resource=cloud_dataproc_batch%2Fbatch_id%2Fmy-batch") ∧
    (SessionLogsURL ("my-project") ("us-central1") ("my-session") 1759294800 1759298400 =
      "https://console.cloud.google.com/logs/viewer?advancedFilter=resource.type%3D%22cloud_dataproc_session%22%0Aresource.labels.session_id%3D%22my-session%22%0Aresource.labels.project_id%3D%22my-project%22%0Aresource.labels.location%3D%22us-central1%22%0Atimestamp%3E%3D%222025-10-01T04%3A59%3A00Z%22%0Atimestamp%3C%3D%222025-10-01T06%3A10%3A00Z%22&project=my-project") := by
  refine ⟨?_, ?_, fun _ _ _ _ _ => rfl, by decide, by decide⟩
  · intro p1 p2 l1 l2 id1 id2 s1 s2 e1 e2 h1 h2 h3 h4 h5
    subst h1; subst h2; subst h3; subst h4; subst h5
    exact ⟨rfl, rfl, rfl, rfl⟩
  · intro project location batchID st et
    have h := queryEscape_append ("cloud_dataproc_batch/batch_id/") batchID
    have h2 : queryEscape ("cloud_dataproc_batch/batch_id/") =
        "cloud_dataproc_batch%2Fbatch_id%2F" := by decide
    simp only [batchLogsURLParams, h, h2]
    simp

/-- C8 witness: the determinism conjunct applied at one concrete
identity/window. -/
theorem C8_witness :
    BatchLogsURL ("my-project") ("us-central1") ("my-batch") 1759294800 1759298400 =
      BatchLogsURL ("my-project") ("us-central1") ("my-batch") 1759294800 1759298400 ∧
    SessionLogsURL ("my-project") ("us-central1") ("my-batch") 1759294800 1759298400 =
      SessionLogsURL ("my-project") ("us-central1") ("my-batch") 1759294800 1759298400 ∧
    BatchConsoleURL ("my-project") ("us-central1") ("my-batch") =
      BatchConsoleURL ("my-project") ("us-central1") ("my-batch") ∧
    SessionConsoleURL ("my-project") ("us-central1") ("my-batch") =
      SessionConsoleURL ("my-project") ("us-central1") ("my-batch") :=
  C8_url_determinism.1 ("my-project") ("my-project") ("us-central1") ("us-central1")
    ("my-batch") ("my-batch") 1759294800 1759294800 1759298400 1759298400
    rfl rfl rfl rfl rfl

/-! ## C4: window defaulting from resource metadata -/

/-- C4: with both bounds missing, the start becomes the metadata
`createTime`, and the end becomes the metadata `stateTime` exactly when
the resource state is in the per-resource-type terminal set
(`{SUCCEEDED, FAILED, CANCELLED, TERMINATED}` for sessions,
`{SUCCEEDED, FAILED, CANCELLED}` for batches) and the current wall-clock
time otherwise — in both get-logs tools. -/
theorem C4_window_defaulting :
    (∀ (m : ResourceMetadata) (now : String) (p : SessionInvokeParams) (sid ct st : String),
      p.sessionID = some sid → sid.data.contains '/' = false →
      p.startTime = "" → p.endTime = "" →
      m.createTime = some ct → m.stateTime = some st →
      (parseRFC3339 ct).isSome = true → (parseRFC3339 st).isSome = true →
      (parseRFC3339 now).isSome = true →
      ∃ q : QueryLogsParams,
        sessionInvoke (Except.ok m) (fun q2 => Except.ok q2) now p = Except.ok q ∧
        q.startTime = ct ∧
        q.endTime = (if sessionTerminalStates.contains (m.state.getD ("")) then st else now)) ∧
    (∀ (m : ResourceMetadata) (now : String) (p : BatchInvokeParams) (bid ct st : String),
      p.batchID = some bid → bid.data.contains '/' = false →
      p.startTime = "" → p.endTime = "" →
      m.createTime = some ct → m.stateTime = some st → (st == "") = false →
      ∃ q : QueryLogsParams,
        batchInvoke (Except.ok m) (fun b q2 => Except.ok (b, q2)) now p =
          Except.ok (bid, q) ∧
        q.startTime = ct ∧
        q.endTime = (if batchTerminalStates.contains (m.state.getD ("")) then st else now)) := by
  constructor
  · intro m now p sid ct st hsid hslash hst het hct hstt hpct hpst hpnow
    obtain ⟨vct, hvct⟩ := Option.isSome_iff_exists.mp hpct
    obtain ⟨vst, hvst⟩ := Option.isSome_iff_exists.mp hpst
    obtain ⟨vnow, hvnow⟩ := Option.isSome_iff_exists.mp hpnow
    have hstne : st ≠ "" := by
      intro h2
      subst h2
      have h3 : parseRFC3339 ("") = none := rfl
      rw [h3] at hvst
      exact Option.noConfusion hvst
    have hslash2 : ('/' : Char) ∉ sid.data := by simpa using hslash
    unfold sessionInvoke
    rw [hsid]
    by_cases hterm : (m.state.getD ("")) ∈ sessionTerminalStates
    · refine
        ⟨{ sessionID := sid, filter := p.filter, newestFirst := p.newestFirst,
           startTime := ct, endTime := st, verbose := p.verbose,
           limit := (match p.limit with | some v => if 0 < v then v else 20 | none => 20) },
         ?_, rfl, ?_⟩
      · simp [hslash2, hst, het, hct, hstt, hterm, hstne, hvct, hvst]
      · simp [hterm]
    · refine
        ⟨{ sessionID := sid, filter := p.filter, newestFirst := p.newestFirst,
           startTime := ct, endTime := now, verbose := p.verbose,
           limit := (match p.limit with | some v => if 0 < v then v else 20 | none => 20) },
         ?_, rfl, ?_⟩
      · simp [hslash2, hst, het, hct, hstt, hterm, hvct, hvnow]
      · simp [hterm]
  · intro m now p bid ct st hbid hslash hst het hct hstt hstne
    have hstne2 : st ≠ "" := by simpa using hstne
    have hslash2 : ('/' : Char) ∉ bid.data := by simpa using hslash
    unfold batchInvoke
    rw [hbid]
    by_cases hterm : (m.state.getD ("")) ∈ batchTerminalStates
    · refine
        ⟨{ sessionID := "", filter := p.filter, newestFirst := p.newestFirst,
           startTime := ct, endTime := st, verbose := p.verbose,
           limit := (match p.limit with | some v => if 0 < v then v else 20 | none => 20) },
         ?_, rfl, ?_⟩
      · simp [hslash2, ParseQueryLogsParams, hst, het, hct, hstt, hterm, hstne2]
      · simp [hterm]
    · refine
        ⟨{ sessionID := "", filter := p.filter, newestFirst := p.newestFirst,
           startTime := ct, endTime := now, verbose := p.verbose,
           limit := (match p.limit with | some v => if 0 < v then v else 20 | none => 20) },
         ?_, rfl, ?_⟩
      · simp [hslash2, ParseQueryLogsParams, hst, het, hct, hstt, hterm]
      · simp [hterm]

/-- C4 witness: a terminal session and a terminal batch, both bounds
missing: the window becomes `createTime .. stateTime`. -/
theorem C4_witness :
    (∃ q : QueryLogsParams,
      sessionInvoke
          (Except.ok { createTime := some ("2025-10-01T05:00:00Z"), state := some ("TERMINATED"),
                       stateTime := some ("2025-10-01T06:00:00Z") })
          (fun q2 => Except.ok q2) ("2025-10-01T07:00:00Z")
          { sessionID := some ("my-session"), filter := "", newestFirst := false,
            startTime := "", endTime := "", verbose := false, limit := none } =
        Except.ok q ∧
      q.startTime = "2025-10-01T05:00:00Z" ∧
      q.endTime =
        (if sessionTerminalStates.contains
            ((some ("TERMINATED") : Option String).getD ("")) then "2025-10-01T06:00:00Z"
         else "2025-10-01T07:00:00Z")) ∧
    (∃ q : QueryLogsParams,
      batchInvoke
          (Except.ok { createTime := some ("2025-10-01T05:00:00Z"), state := some ("SUCCEEDED"),
                       stateTime := some ("2025-10-01T06:00:00Z") })
          (fun b q2 => Except.ok (b, q2)) ("2025-10-01T07:00:00Z")
          { batchID := some ("my-batch"), filter := "", newestFirst := false,
            startTime := "", endTime := "", verbose := false, limit := none } =
        Except.ok ("my-batch", q) ∧
      q.startTime = "2025-10-01T05:00:00Z" ∧
      q.endTime =
        (if batchTerminalStates.contains
            ((some ("SUCCEEDED") : Option String).getD ("")) then "2025-10-01T06:00:00Z"
         else "2025-10-01T07:00:00Z")) :=
  ⟨C4_window_defaulting.1
      { createTime := some ("2025-10-01T05:00:00Z"), state := some ("TERMINATED"),
        stateTime := some ("2025-10-01T06:00:00Z") }
      ("2025-10-01T07:00:00Z")
      { sessionID := some ("my-session"), filter := "", newestFirst := false,
        startTime := "", endTime := "", verbose := false, limit := none }
      ("my-session") ("2025-10-01T05:00:00Z") ("2025-10-01T06:00:00Z")
      rfl (by decide) rfl rfl rfl rfl (by decide) (by decide) (by decide),
    C4_window_defaulting.2
      { createTime := some ("2025-10-01T05:00:00Z"), state := some ("SUCCEEDED"),
        stateTime := some ("2025-10-01T06:00:00Z") }
      ("2025-10-01T07:00:00Z")
      { batchID := some ("my-batch"), filter := "", newestFirst := false,
        startTime := "", endTime := "", verbose := false, limit := none }
      ("my-batch") ("2025-10-01T05:00:00Z") ("2025-10-01T06:00:00Z")
      rfl (by decide) rfl rfl rfl rfl (by decide)⟩

/-! ## C10: short-id guard before any backend access -/

/-- C10: an id containing `/` makes `Invoke` fail with the short-name
error message, whatever the metadata lookup or log query would return
(so neither backend is consulted), in both get-logs tools. -/
theorem C10_short_id_guard :
    (∀ (gs : Except String ResourceMetadata) (gl : QueryLogsParams → Except String Unit)
        (now : String) (p : SessionInvokeParams) (sid : String),
      p.sessionID = some sid → sid.data.contains '/' = true →
      sessionInvoke gs gl now p =
        Except.error ("session_id must be a short name without '/': " ++ sid)) ∧
    (∀ (gb : Except String ResourceMetadata)
        (gbl : String → QueryLogsParams → Except String Unit)
        (now : String) (p : BatchInvokeParams) (bid : String),
      p.batchID = some bid → bid.data.contains '/' = true →
      batchInvoke gb gbl now p =
        Except.error ("batch_id must be a short name without '/': " ++ bid)) := by
  constructor
  · intro gs gl now p sid hsid hslash
    have hslash2 : ('/' : Char) ∈ sid.data := by simpa using hslash
    unfold sessionInvoke
    rw [hsid]
    simp [hslash2]
  · intro gb gbl now p bid hbid hslash
    have hslash2 : ('/' : Char) ∈ bid.data := by simpa using hslash
    unfold batchInvoke
    rw [hbid]
    simp [hslash2]

/-- C10 witness: the id `a/b` is rejected by both tools with the
short-name error, for an arbitrary (even failing) metadata backend. -/
theorem C10_witness :
    sessionInvoke (Except.error ("boom")) (fun _ => Except.ok ()) ("now")
        { sessionID := some ("a/b"), filter := "", newestFirst := false,
          startTime := "", endTime := "", verbose := false, limit := none } =
      Except.error ("session_id must be a short name without '/': " ++ "a/b") ∧
    batchInvoke (Except.error ("boom")) (fun _ _ => Except.ok ()) ("now")
        { batchID := some ("a/b"), filter := "", newestFirst := false,
          startTime := "", endTime := "", verbose := false, limit := none } =
      Except.error ("batch_id must be a short name without '/': " ++ "a/b") :=
  ⟨C10_short_id_guard.1 (Except.error ("boom")) (fun _ => Except.ok ()) ("now")
      { sessionID := some ("a/b"), filter := "", newestFirst := false,
        startTime := "", endTime := "", verbose := false, limit := none }
      ("a/b") rfl (by decide),
    C10_short_id_guard.2 (Except.error ("boom")) (fun _ _ => Except.ok ()) ("now")
      { batchID := some ("a/b"), filter := "", newestFirst := false,
        startTime := "", endTime := "", verbose := false, limit := none }
      ("a/b") rfl (by decide)⟩

/-! ## C2: RFC3339 validation of caller-supplied vs metadata bounds -/

/-- C2: refutation of the claim as stated.  In the session tool a start
bound filled in from metadata (`createTime = "bogus"`) IS re-validated:
the invocation fails with the `startTime` format error instead of
proceeding with the trusted metadata value. -/
theorem C2_counterexample :
    sessionInvoke
        (Except.ok { createTime := some ("bogus"), state := some ("ACTIVE"), stateTime := none })
        (fun q => Except.ok q) ("2025-10-01T07:00:00Z")
        { sessionID := some ("my-session"), filter := "", newestFirst := false,
          startTime := "", endTime := "2025-10-01T06:00:00Z", verbose := false,
          limit := none } =
      Except.error ("startTime must be in RFC3339 format") := by
  rfl

/-- C2 (amended): caller-supplied startTime and endTime are each
strictly RFC3339-validated in both tools, with the failure naming the
offending field; in the batch tool metadata-derived bounds (the
createTime-derived start and the stateTime-derived end) are passed on
without re-validation; in the session tool the validation runs after the
metadata fill-in, so both metadata-derived bounds are re-parsed as
well. -/
theorem C2_time_validation :
    (∀ (gs : Except String ResourceMetadata) (gl : QueryLogsParams → Except String Unit)
        (now : String) (p : SessionInvokeParams) (sid : String),
      p.sessionID = some sid → sid.data.contains '/' = false →
      (p.startTime == "") = false → (p.endTime == "") = false →
      parseRFC3339 p.startTime = none →
      sessionInvoke gs gl now p = Except.error ("startTime must be in RFC3339 format")) ∧
    (∀ (gb : Except String ResourceMetadata)
        (gbl : String → QueryLogsParams → Except String Unit)
        (now : String) (p : BatchInvokeParams) (bid : String),
      p.batchID = some bid → bid.data.contains '/' = false →
      (p.startTime == "") = false → parseRFC3339 p.startTime = none →
      batchInvoke gb gbl now p = Except.error ("startTime must be in RFC3339 format")) ∧
    (∀ (m : ResourceMetadata) (now : String) (p : BatchInvokeParams) (bid ct : String),
      p.batchID = some bid → bid.data.contains '/' = false →
      p.startTime = "" → (p.endTime == "") = false →
      (parseRFC3339 p.endTime).isSome = true → m.createTime = some ct →
      ∃ q : QueryLogsParams,
        batchInvoke (Except.ok m) (fun b q2 => Except.ok (b, q2)) now p =
          Except.ok (bid, q) ∧ q.startTime = ct) ∧
    (∀ (m : ResourceMetadata) (gl : QueryLogsParams → Except String Unit)
        (now : String) (p : SessionInvokeParams) (sid ct : String),
      p.sessionID = some sid → sid.data.contains '/' = false →
      p.startTime = "" → (ct == "") = false →
      m.createTime = some ct → parseRFC3339 ct = none →
      sessionInvoke (Except.ok m) gl now p =
        Except.error ("startTime must be in RFC3339 format")) ∧
    (∀ (gs : Except String ResourceMetadata) (gl : QueryLogsParams → Except String Unit)
        (now : String) (p : SessionInvokeParams) (sid : String),
      p.sessionID = some sid → sid.data.contains '/' = false →
      (p.startTime == "") = false → (p.endTime == "") = false →
      (parseRFC3339 p.startTime).isSome = true → parseRFC3339 p.endTime = none →
      sessionInvoke gs gl now p = Except.error ("endTime must be in RFC3339 format")) ∧
    (∀ (gb : Except String ResourceMetadata)
        (gbl : String → QueryLogsParams → Except String Unit)
        (now : String) (p : BatchInvokeParams) (bid : String),
      p.batchID = some bid → bid.data.contains '/' = false →
      (p.startTime == "") = false → (parseRFC3339 p.startTime).isSome = true →
      (p.endTime == "") = false → parseRFC3339 p.endTime = none →
      batchInvoke gb gbl now p = Except.error ("endTime must be in RFC3339 format")) ∧
    (∀ (m : ResourceMetadata) (now : String) (p : BatchInvokeParams) (bid st : String),
      p.batchID = some bid → bid.data.contains '/' = false →
      (p.startTime == "") = false → (parseRFC3339 p.startTime).isSome = true →
      p.endTime = "" →
      (m.state.getD ("")) ∈ batchTerminalStates → m.stateTime = some st →
      (st == "") = false →
      ∃ q : QueryLogsParams,
        batchInvoke (Except.ok m) (fun b q2 => Except.ok (b, q2)) now p =
          Except.ok (bid, q) ∧ q.endTime = st) ∧
    (∀ (m : ResourceMetadata) (gl : QueryLogsParams → Except String Unit)
        (now : String) (p : SessionInvokeParams) (sid st : String),
      p.sessionID = some sid → sid.data.contains '/' = false →
      (p.startTime == "") = false → (parseRFC3339 p.startTime).isSome = true →
      p.endTime = "" →
      (m.state.getD ("")) ∈ sessionTerminalStates → m.stateTime = some st →
      (st == "") = false → parseRFC3339 st = none →
      sessionInvoke (Except.ok m) gl now p =
        Except.error ("endTime must be in RFC3339 format")) := by
  refine ⟨?_, ?_, ?_, ?_, ?_, ?_, ?_, ?_⟩
  · intro gs gl now p sid hsid hslash hstne hetne hparse
    have hslash2 : ('/' : Char) ∉ sid.data := by simpa using hslash
    have hstne2 : p.startTime ≠ "" := by simpa using hstne
    have hetne2 : p.endTime ≠ "" := by simpa using hetne
    unfold sessionInvoke
    rw [hsid]
    simp [hslash2, hstne2, hetne2, hparse]
  · intro gb gbl now p bid hbid hslash hstne hparse
    have hslash2 : ('/' : Char) ∉ bid.data := by simpa using hslash
    have hstne2 : p.startTime ≠ "" := by simpa using hstne
    unfold batchInvoke
    rw [hbid]
    simp [hslash2, ParseQueryLogsParams, hstne2, hparse]
  · intro m now p bid ct hbid hslash hst hetne hpet hct
    obtain ⟨vet, hvet⟩ := Option.isSome_iff_exists.mp hpet
    have hslash2 : ('/' : Char) ∉ bid.data := by simpa using hslash
    have hetne2 : p.endTime ≠ "" := by simpa using hetne
    unfold batchInvoke
    rw [hbid]
    refine
      ⟨{ sessionID := "", filter := p.filter, newestFirst := p.newestFirst,
         startTime := ct, endTime := p.endTime, verbose := p.verbose,
         limit := (match p.limit with | some v => if 0 < v then v else 20 | none => 20) },
       ?_, rfl⟩
    simp [hslash2, ParseQueryLogsParams, hst, hetne2, hct, hvet]
  · intro m gl now p sid ct hsid hslash hst hctne hct hparse
    have hslash2 : ('/' : Char) ∉ sid.data := by simpa using hslash
    have hctne2 : ct ≠ "" := by simpa using hctne
    unfold sessionInvoke
    rw [hsid]
    simp [hslash2, hst, hct, hctne2, hparse]
  · intro gs gl now p sid hsid hslash hstne hetne hpst hparse
    have hslash2 : ('/' : Char) ∉ sid.data := by simpa using hslash
    have hstne2 : p.startTime ≠ "" := by simpa using hstne
    have hetne2 : p.endTime ≠ "" := by simpa using hetne
    obtain ⟨vst, hvst⟩ := Option.isSome_iff_exists.mp hpst
    unfold sessionInvoke
    rw [hsid]
    simp [hslash2, hstne2, hetne2, hvst, hparse]
  · intro gb gbl now p bid hbid hslash hstne hpst hetne hparse
    have hslash2 : ('/' : Char) ∉ bid.data := by simpa using hslash
    have hstne2 : p.startTime ≠ "" := by simpa using hstne
    have hetne2 : p.endTime ≠ "" := by simpa using hetne
    obtain ⟨vst, hvst⟩ := Option.isSome_iff_exists.mp hpst
    unfold batchInvoke
    rw [hbid]
    simp [hslash2, ParseQueryLogsParams, hstne2, hetne2, hvst, hparse]
  · intro m now p bid st hbid hslash hstne hpst het hterm hstt hstneB
    have hslash2 : ('/' : Char) ∉ bid.data := by simpa using hslash
    have hstne2 : p.startTime ≠ "" := by simpa using hstne
    have hstne3 : st ≠ "" := by simpa using hstneB
    obtain ⟨vst, hvst⟩ := Option.isSome_iff_exists.mp hpst
    unfold batchInvoke
    rw [hbid]
    refine
      ⟨{ sessionID := "", filter := p.filter, newestFirst := p.newestFirst,
         startTime := p.startTime, endTime := st, verbose := p.verbose,
         limit := (match p.limit with | some v => if 0 < v then v else 20 | none => 20) },
       ?_, rfl⟩
    simp [hslash2, ParseQueryLogsParams, hstne2, het, hterm, hstt, hstne3, hvst]
  · intro m gl now p sid st hsid hslash hstne hpst het hterm hstt hstneB hparse
    have hslash2 : ('/' : Char) ∉ sid.data := by simpa using hslash
    have hstne2 : p.startTime ≠ "" := by simpa using hstne
    have hstne3 : st ≠ "" := by simpa using hstneB
    obtain ⟨vst, hvst⟩ := Option.isSome_iff_exists.mp hpst
    unfold sessionInvoke
    rw [hsid]
    simp [hslash2, hstne2, het, hterm, hstt, hstne3, hvst, hparse]

/-- C2 witness: all eight validation behaviours at concrete inputs — a
bad caller start and a bad caller end in each tool, a bogus metadata
start and a bogus metadata end accepted by the batch tool, and the same
bogus metadata bounds rejected by the session tool. -/
theorem C2_witness :
    sessionInvoke (Except.error ("boom")) (fun _ => Except.ok ()) ("now")
        { sessionID := some ("s"), filter := "", newestFirst := false,
          startTime := "bad", endTime := "2025-10-01T06:00:00Z", verbose := false,
          limit := none } =
      Except.error ("startTime must be in RFC3339 format") ∧
    batchInvoke (Except.error ("boom")) (fun _ _ => Except.ok ()) ("now")
        { batchID := some ("b"), filter := "", newestFirst := false,
          startTime := "bad", endTime := "", verbose := false, limit := none } =
      Except.error ("startTime must be in RFC3339 format") ∧
    (∃ q : QueryLogsParams,
      batchInvoke
          (Except.ok { createTime := some ("bogus"), state := some ("SUCCEEDED"),
                       stateTime := some ("2025-10-01T06:00:00Z") })
          (fun b q2 => Except.ok (b, q2)) ("now")
          { batchID := some ("b"), filter := "", newestFirst := false,
            startTime := "", endTime := "2025-10-01T07:00:00Z", verbose := false,
            limit := none } =
        Except.ok ("b", q) ∧ q.startTime = "bogus") ∧
    sessionInvoke
        (Except.ok { createTime := some ("bogus"), state := some ("ACTIVE"), stateTime := none })
        (fun _ => Except.ok ()) ("now")
        { sessionID := some ("s"), filter := "", newestFirst := false,
          startTime := "", endTime := "2025-10-01T06:00:00Z", verbose := false,
          limit := none } =
      Except.error ("startTime must be in RFC3339 format") ∧
    sessionInvoke (Except.error ("boom")) (fun _ => Except.ok ()) ("now")
        { sessionID := some ("s"), filter := "", newestFirst := false,
          startTime := "2025-10-01T05:00:00Z", endTime := "bad", verbose := false,
          limit := none } =
      Except.error ("endTime must be in RFC3339 format") ∧
    batchInvoke (Except.error ("boom")) (fun _ _ => Except.ok ()) ("now")
        { batchID := some ("b"), filter := "", newestFirst := false,
          startTime := "2025-10-01T05:00:00Z", endTime := "bad", verbose := false,
          limit := none } =
      Except.error ("endTime must be in RFC3339 format") ∧
    (∃ q : QueryLogsParams,
      batchInvoke
          (Except.ok { createTime := none, state := some ("SUCCEEDED"),
                       stateTime := some ("bogus") })
          (fun b q2 => Except.ok (b, q2)) ("now")
          { batchID := some ("b"), filter := "", newestFirst := false,
            startTime := "2025-10-01T05:00:00Z", endTime := "", verbose := false,
            limit := none } =
        Except.ok ("b", q) ∧ q.endTime = "bogus") ∧
    sessionInvoke
        (Except.ok { createTime := none, state := some ("TERMINATED"),
                     stateTime := some ("bogus") })
        (fun _ => Except.ok ()) ("now")
        { sessionID := some ("s"), filter := "", newestFirst := false,
          startTime := "2025-10-01T05:00:00Z", endTime := "", verbose := false,
          limit := none } =
      Except.error ("endTime must be in RFC3339 format") :=
  ⟨C2_time_validation.1 (Except.error ("boom")) (fun _ => Except.ok ()) ("now")
      { sessionID := some ("s"), filter := "", newestFirst := false,
        startTime := "bad", endTime := "2025-10-01T06:00:00Z", verbose := false,
        limit := none } ("s") rfl (by decide) (by decide) (by decide) rfl,
    C2_time_validation.2.1 (Except.error ("boom")) (fun _ _ => Except.ok ()) ("now")
      { batchID := some ("b"), filter := "", newestFirst := false,
        startTime := "bad", endTime := "", verbose := false, limit := none }
      ("b") rfl (by decide) (by decide) rfl,
    C2_time_validation.2.2.1
      { createTime := some ("bogus"), state := some ("SUCCEEDED"),
        stateTime := some ("2025-10-01T06:00:00Z") }
      ("now")
      { batchID := some ("b"), filter := "", newestFirst := false,
        startTime := "", endTime := "2025-10-01T07:00:00Z", verbose := false,
        limit := none }
      ("b") ("bogus") rfl (by decide) rfl (by decide) (by decide) rfl,
    C2_time_validation.2.2.2.1
      { createTime := some ("bogus"), state := some ("ACTIVE"), stateTime := none }
      (fun _ => Except.ok ()) ("now")
      { sessionID := some ("s"), filter := "", newestFirst := false,
        startTime := "", endTime := "2025-10-01T06:00:00Z", verbose := false,
        limit := none }
      ("s") ("bogus") rfl (by decide) rfl (by decide) rfl rfl,
    C2_time_validation.2.2.2.2.1 (Except.error ("boom")) (fun _ => Except.ok ()) ("now")
      { sessionID := some ("s"), filter := "", newestFirst := false,
        startTime := "2025-10-01T05:00:00Z", endTime := "bad", verbose := false,
        limit := none }
      ("s") rfl (by decide) (by decide) (by decide) (by decide) rfl,
    C2_time_validation.2.2.2.2.2.1 (Except.error ("boom")) (fun _ _ => Except.ok ()) ("now")
      { batchID := some ("b"), filter := "", newestFirst := false,
        startTime := "2025-10-01T05:00:00Z", endTime := "bad", verbose := false,
        limit := none }
      ("b") rfl (by decide) (by decide) (by decide) (by decide) rfl,
    C2_time_validation.2.2.2.2.2.2.1
      { createTime := none, state := some ("SUCCEEDED"), stateTime := some ("bogus") }
      ("now")
      { batchID := some ("b"), filter := "", newestFirst := false,
        startTime := "2025-10-01T05:00:00Z", endTime := "", verbose := false,
        limit := none }
      ("b") ("bogus") rfl (by decide) (by decide) (by decide) rfl (by decide) rfl (by decide),
    C2_time_validation.2.2.2.2.2.2.2
      { createTime := none, state := some ("TERMINATED"), stateTime := some ("bogus") }
      (fun _ => Except.ok ()) ("now")
      { sessionID := some ("s"), filter := "", newestFirst := false,
        startTime := "2025-10-01T05:00:00Z", endTime := "", verbose := false,
        limit := none }
      ("s") ("bogus") rfl (by decide) (by decide) (by decide) rfl (by decide) rfl
      (by decide) rfl⟩

theorem splitAuxL_cons_ne (c : Char) (h : ¬c = '/') (rest acc : List Char) :
    splitAuxL (c :: rest) acc = splitAuxL rest (c :: acc) :=
  splitAuxL.eq_3 acc c rest (fun h2 => h h2)

theorem splitAuxL_slash (rest acc : List Char) :
    splitAuxL ('/' :: rest) acc = acc.reverse :: splitAuxL rest [] := rfl

theorem splitAuxL_no_slash (a : List Char) :
    ∀ acc, ('/' : Char) ∉ a → splitAuxL a acc = [acc.reverse ++ a] := by
  induction a with
  | nil => intro acc _; simp [splitAuxL]
  | cons c a ih =>
    intro acc hn
    have hc : ¬c = '/' := by
      intro h; exact hn (by simp [h])
    rw [splitAuxL_cons_ne c hc, ih (c :: acc) (fun h => hn (List.mem_cons_of_mem _ h))]
    simp

theorem splitAuxL_append_slash (a : List Char) :
    ∀ acc rest, ('/' : Char) ∉ a →
      splitAuxL (a ++ '/' :: rest) acc = (acc.reverse ++ a) :: splitAuxL rest [] := by
  induction a with
  | nil => intro acc rest _; simp [splitAuxL_slash]
  | cons c a ih =>
    intro acc rest hn
    have hc : ¬c = '/' := by
      intro h; exact hn (by simp [h])
    rw [List.cons_append, splitAuxL_cons_ne c hc,
      ih (c :: acc) rest (fun h => hn (List.mem_cons_of_mem _ h))]
    simp

theorem splitAuxL_ne_nil (cs : List Char) : ∀ acc, splitAuxL cs acc ≠ [] := by
  induction cs with
  | nil => intro acc; simp [splitAuxL]
  | cons c rest ih =>
    intro acc
    by_cases hc : c = '/'
    · subst hc; rw [splitAuxL_slash]; simp
    · rw [splitAuxL_cons_ne c hc]; exact ih _

theorem joinSlash_cons_cons (p q : List Char) (t : List (List Char)) :
    joinSlash (p :: q :: t) = p ++ '/' :: joinSlash (q :: t) := rfl

theorem joinSlash_splitAuxL (cs : List Char) :
    ∀ acc, joinSlash (splitAuxL cs acc) = acc.reverse ++ cs := by
  induction cs with
  | nil => intro acc; simp [splitAuxL, joinSlash]
  | cons c rest ih =>
    intro acc
    by_cases hc : c = '/'
    · subst hc
      rw [splitAuxL_slash]
      obtain ⟨q, t, hqt⟩ := List.exists_cons_of_ne_nil (splitAuxL_ne_nil rest [])
      have ih2 := ih ([] : List Char)
      rw [hqt] at ih2 ⊢
      rw [joinSlash_cons_cons]
      simp only [List.reverse_nil, List.nil_append] at ih2
      rw [ih2]
    · rw [splitAuxL_cons_ne c hc, ih (c :: acc)]
      simp

theorem splitAuxL_parts_no_slash (cs : List Char) :
    ∀ acc, ('/' : Char) ∉ acc → ∀ p ∈ splitAuxL cs acc, ('/' : Char) ∉ p := by
  induction cs with
  | nil =>
    intro acc hacc p hp
    simp [splitAuxL] at hp
    subst hp
    simp [hacc]
  | cons c rest ih =>
    intro acc hacc p hp
    by_cases hc : c = '/'
    · subst hc
      rw [splitAuxL_slash] at hp
      rcases List.mem_cons.mp hp with h | h
      · subst h; simp [hacc]
      · exact ih [] (by simp) p h
    · rw [splitAuxL_cons_ne c hc] at hp
      exact ih (c :: acc) (by simp [hacc, Ne.symm hc]) p hp

theorem mk_data (l : List Char) : (String.mk l).data = l := rfl

theorem splitAuxL_shape6 (p1 P l1 L b1 B : List Char)
    (hp1 : ('/' : Char) ∉ p1) (hP : ('/' : Char) ∉ P) (hl1 : ('/' : Char) ∉ l1)
    (hL : ('/' : Char) ∉ L) (hb1 : ('/' : Char) ∉ b1) (hB : ('/' : Char) ∉ B) :
    splitAuxL (p1 ++ '/' :: (P ++ '/' :: (l1 ++ '/' :: (L ++ '/' :: (b1 ++ '/' :: B))))) [] =
      [p1, P, l1, L, b1, B] := by
  rw [splitAuxL_append_slash p1 [] _ hp1]
  rw [splitAuxL_append_slash P [] _ hP]
  rw [splitAuxL_append_slash l1 [] _ hl1]
  rw [splitAuxL_append_slash L [] _ hL]
  rw [splitAuxL_append_slash b1 [] _ hb1]
  rw [splitAuxL_no_slash B [] hB]
  simp

theorem data_shape_batch (P L B : String) :
    ("projects/" ++ P ++ "/locations/" ++ L ++ "/batches/" ++ B).data =
      "projects".data ++ '/' :: (P.data ++ '/' :: ("locations".data ++ '/' ::
        (L.data ++ '/' :: ("batches".data ++ '/' :: B.data)))) := by
  have e1 : ("projects/" : String).data = "projects".data ++ ['/'] := by decide
  have e2 : ("/locations/" : String).data = '/' :: ("locations".data ++ ['/']) := by decide
  have e3 : ("/batches/" : String).data = '/' :: ("batches".data ++ ['/']) := by decide
  simp [String.data_append, e1, e2, e3]

theorem splitSlash_batch_shape (P L B : String)
    (hP : ('/' : Char) ∉ P.data) (hL : ('/' : Char) ∉ L.data) (hB : ('/' : Char) ∉ B.data) :
    splitSlash ("projects/" ++ P ++ "/locations/" ++ L ++ "/batches/" ++ B) =
      ["projects", P, "locations", L, "batches", B] := by
  unfold splitSlash
  rw [data_shape_batch]
  rw [splitAuxL_shape6 _ _ _ _ _ _ (by decide) hP (by decide) hL (by decide) hB]
  rfl

theorem ExtractBatchDetails_ok (P L B : String)
    (hP : ('/' : Char) ∉ P.data) (hL : ('/' : Char) ∉ L.data) (hB : ('/' : Char) ∉ B.data) :
    ExtractBatchDetails ("projects/" ++ P ++ "/locations/" ++ L ++ "/batches/" ++ B) =
      Except.ok (P, L, B) := by
  unfold ExtractBatchDetails
  rw [splitSlash_batch_shape P L B hP hL hB]
  split
  · rename_i p l b heq
    simp only [List.cons.injEq, and_true] at heq
    obtain ⟨-, h2, -, h4, -, h6⟩ := heq
    rw [h2, h4, h6]
  · rename_i hne
    exact absurd rfl (hne P L B)

theorem ExtractBatchDetails_complete (s : String) :
    ExtractBatchDetails s = Except.error ("failed to parse batch name: " ++ s) ∨
    ∃ P L B : String, ('/' : Char) ∉ P.data ∧ ('/' : Char) ∉ L.data ∧ ('/' : Char) ∉ B.data ∧
      s = "projects/" ++ P ++ "/locations/" ++ L ++ "/batches/" ++ B ∧
      ExtractBatchDetails s = Except.ok (P, L, B) := by
  rw [ExtractBatchDetails.eq_def]
  split
  · rename_i P L B heq
    right
    have heq2 : (splitAuxL s.data []).map (fun l => String.mk l) =
        ["projects", P, "locations", L, "batches", B] := heq
    have hl : splitAuxL s.data [] =
        ["projects".data, P.data, "locations".data, L.data, "batches".data, B.data] := by
      have h2 := congrArg (List.map String.data) heq2
      rw [List.map_map] at h2
      have hid : (String.data ∘ fun l => (⟨l⟩ : String)) = fun l => l := rfl
      rw [hid] at h2
      simpa using h2
    have hparts := splitAuxL_parts_no_slash s.data [] (by simp)
    have hP : ('/' : Char) ∉ P.data := hparts P.data (by rw [hl]; simp)
    have hL : ('/' : Char) ∉ L.data := hparts L.data (by rw [hl]; simp)
    have hB : ('/' : Char) ∉ B.data := hparts B.data (by rw [hl]; simp)
    have hjoin := joinSlash_splitAuxL s.data []
    rw [hl] at hjoin
    have hshape : s = "projects/" ++ P ++ "/locations/" ++ L ++ "/batches/" ++ B := by
      apply String.ext
      rw [data_shape_batch]
      have : joinSlash
          ["projects".data, P.data, "locations".data, L.data, "batches".data, B.data] =
          "projects".data ++ '/' :: (P.data ++ '/' :: ("locations".data ++ '/' ::
            (L.data ++ '/' :: ("batches".data ++ '/' :: B.data)))) := by
        simp [joinSlash]
      rw [this] at hjoin
      simp at hjoin
      exact hjoin.symm
    exact ⟨P, L, B, hP, hL, hB, hshape, rfl⟩
  · left
    rfl

theorem data_shape_session (P L S : String) :
    ("projects/" ++ P ++ "/locations/" ++ L ++ "/sessions/" ++ S).data =
      "projects".data ++ '/' :: (P.data ++ '/' :: ("locations".data ++ '/' ::
        (L.data ++ '/' :: ("sessions".data ++ '/' :: S.data)))) := by
  have e1 : ("projects/" : String).data = "projects".data ++ ['/'] := by decide
  have e2 : ("/locations/" : String).data = '/' :: ("locations".data ++ ['/']) := by decide
  have e3 : ("/sessions/" : String).data = '/' :: ("sessions".data ++ ['/']) := by decide
  simp [String.data_append, e1, e2, e3]

theorem splitSlash_session_shape (P L S : String)
    (hP : ('/' : Char) ∉ P.data) (hL : ('/' : Char) ∉ L.data) (hS : ('/' : Char) ∉ S.data) :
    splitSlash ("projects/" ++ P ++ "/locations/" ++ L ++ "/sessions/" ++ S) =
      ["projects", P, "locations", L, "sessions", S] := by
  unfold splitSlash
  rw [data_shape_session]
  rw [splitAuxL_shape6 _ _ _ _ _ _ (by decide) hP (by decide) hL (by decide) hS]
  rfl

theorem ExtractSessionDetails_ok (P L S : String)
    (hP : ('/' : Char) ∉ P.data) (hL : ('/' : Char) ∉ L.data) (hS : ('/' : Char) ∉ S.data) :
    ExtractSessionDetails ("projects/" ++ P ++ "/locations/" ++ L ++ "/sessions/" ++ S) =
      Except.ok (P, L, S) := by
  unfold ExtractSessionDetails
  rw [splitSlash_session_shape P L S hP hL hS]
  split
  · rename_i p l b heq
    simp only [List.cons.injEq, and_true] at heq
    obtain ⟨-, h2, -, h4, -, h6⟩ := heq
    rw [h2, h4, h6]
  · rename_i hne
    exact absurd rfl (hne P L S)

theorem ExtractSessionDetails_complete (s : String) :
    ExtractSessionDetails s = Except.error ("failed to parse session name: " ++ s) ∨
    ∃ P L S : String, ('/' : Char) ∉ P.data ∧ ('/' : Char) ∉ L.data ∧ ('/' : Char) ∉ S.data ∧
      s = "projects/" ++ P ++ "/locations/" ++ L ++ "/sessions/" ++ S ∧
      ExtractSessionDetails s = Except.ok (P, L, S) := by
  rw [ExtractSessionDetails.eq_def]
  split
  · rename_i P L S heq
    right
    have heq2 : (splitAuxL s.data []).map (fun l => String.mk l) =
        ["projects", P, "locations", L, "sessions", S] := heq
    have hl : splitAuxL s.data [] =
        ["projects".data, P.data, "locations".data, L.data, "sessions".data, S.data] := by
      have h2 := congrArg (List.map String.data) heq2
      rw [List.map_map] at h2
      have hid : (String.data ∘ fun l => (⟨l⟩ : String)) = fun l => l := rfl
      rw [hid] at h2
      simpa using h2
    have hparts := splitAuxL_parts_no_slash s.data [] (by simp)
    have hP : ('/' : Char) ∉ P.data := hparts P.data (by rw [hl]; simp)
    have hL : ('/' : Char) ∉ L.data := hparts L.data (by rw [hl]; simp)
    have hS : ('/' : Char) ∉ S.data := hparts S.data (by rw [hl]; simp)
    have hjoin := joinSlash_splitAuxL s.data []
    rw [hl] at hjoin
    have hshape : s = "projects/" ++ P ++ "/locations/" ++ L ++ "/sessions/" ++ S := by
      apply String.ext
      rw [data_shape_session]
      have hjs : joinSlash
          ["projects".data, P.data, "locations".data, L.data, "sessions".data, S.data] =
          "projects".data ++ '/' :: (P.data ++ '/' :: ("locations".data ++ '/' ::
            (L.data ++ '/' :: ("sessions".data ++ '/' :: S.data)))) := by
        simp [joinSlash]
      rw [hjs] at hjoin
      simp at hjoin
      exact hjoin.symm
    exact ⟨P, L, S, hP, hL, hS, hshape, rfl⟩
  · left
    rfl

/-! ## C9: resource-name parsing -/

set_option maxRecDepth 40000 in
/-- C9: every name of the exact shape `projects/P/locations/L/batches/B`
(respectively `sessions/S`) parses to `(P, L, B)`; every other string
fails with `failed to parse batch name: <input>` (respectively
`session`), the original input embedded verbatim, and no partially
parsed identifier is returned; the `url_test.go` vectors are checked
byte-for-byte. -/
theorem C9_resource_name_parsing :
    (∀ P L B : String,
      ('/' : Char) ∉ P.data → ('/' : Char) ∉ L.data → ('/' : Char) ∉ B.data →
      ExtractBatchDetails ("projects/" ++ P ++ "/locations/" ++ L ++ "/batches/" ++ B) =
        Except.ok (P, L, B) ∧
      ExtractSessionDetails ("projects/" ++ P ++ "/locations/" ++ L ++ "/sessions/" ++ B) =
        Except.ok (P, L, B)) ∧
    (∀ s : String,
      ExtractBatchDetails s = Except.error ("failed to parse batch name: " ++ s) ∨
      ∃ P L B : String, ('/' : Char) ∉ P.data ∧ ('/' : Char) ∉ L.data ∧
        ('/' : Char) ∉ B.data ∧
        s = "projects/" ++ P ++ "/locations/" ++ L ++ "/batches/" ++ B ∧
        ExtractBatchDetails s = Except.ok (P, L, B)) ∧
    (∀ s : String,
      ExtractSessionDetails s = Except.error ("failed to parse session name: " ++ s) ∨
      ∃ P L S : String, ('/' : Char) ∉ P.data ∧ ('/' : Char) ∉ L.data ∧
        ('/' : Char) ∉ S.data ∧
        s = "projects/" ++ P ++ "/locations/" ++ L ++ "/sessions/" ++ S ∧
        ExtractSessionDetails s = Except.ok (P, L, S)) ∧
    ExtractBatchDetails ("projects/my-project/locations/us-central1/batches/my-batch") =
      Except.ok ("my-project", "us-central1", "my-batch") ∧
    ExtractBatchDetails ("invalid-name") =
      Except.error ("failed to parse batch name: invalid-name") ∧
    ExtractSessionDetails ("projects/my-project/locations/us-central1/sessions/my-session") =
      Except.ok ("my-project", "us-central1", "my-session") ∧
    ExtractSessionDetails ("invalid-name") =
      Except.error ("failed to parse session name: invalid-name") :=
  ⟨fun P L B hP hL hB =>
      ⟨ExtractBatchDetails_ok P L B hP hL hB, ExtractSessionDetails_ok P L B hP hL hB⟩,
    ExtractBatchDetails_complete, ExtractSessionDetails_complete,
    by rfl, by rfl, by rfl, by rfl⟩

/-- C9 witness: the success direction applied at the `url_test.go`
identifiers. -/
theorem C9_witness :
    ExtractBatchDetails ("projects/" ++ "my-project" ++ "/locations/" ++ "us-central1" ++
        "/batches/" ++ "my-batch") =
      Except.ok ("my-project", "us-central1", "my-batch") ∧
    ExtractSessionDetails ("projects/" ++ "my-project" ++ "/locations/" ++ "us-central1" ++
        "/sessions/" ++ "my-batch") =
      Except.ok ("my-project", "us-central1", "my-batch") :=
  C9_resource_name_parsing.1 ("my-project") ("us-central1") ("my-batch")
    (by decide) (by decide) (by decide)

end ServerlessSpark
